import Mathlib

/-!
Shallow embedding of the `plotters-layout` crate (files `src/chart.rs` and
`src/lib.rs`) and proofs about its layout arithmetic.

Modelling conventions:
* Rust `u32` values are modelled as `Nat`; where a claim depends on the values
  being representable machine integers, the theorem carries an explicit
  `< 2^32` hypothesis.
* The `u32` subtractions in `estimate_plot_area_size` can underflow; in Rust
  (with debug assertions) an underflowing subtraction panics.  The panic
  outcome is modelled as `none` via `sub_u32`.
* External collaborators (the font-metrics provider and the plotters drawing
  backend) are not part of this repository; the result of the text-metrics
  query is passed to `caption` as an explicit `Except` argument, and the text
  style derived from a font is an abstract type parameter `σ`.
* A pixel surface is represented by its pixel dimensions, the only datum the
  layout arithmetic reads from it.
-/

namespace PlottersLayout

/-- The four per-side pixel sizes, `[u32; 4]` in the source indexed by
`INDEX_TOP = 0`, `INDEX_BOTTOM = 1`, `INDEX_LEFT = 2`, `INDEX_RIGHT = 3`. -/
structure Sides where
  top : Nat
  bottom : Nat
  left : Nat
  right : Nat
deriving DecidableEq

/-- `ChartLayout` from `src/chart.rs`: the layout descriptor.  `σ` is the
abstract type of text styles (`TextStyle` in the source). -/
structure ChartLayout (σ : Type) where
  title_height : Nat
  title_content : Option (String × σ × Nat)
  margin : Sides
  label_area_size : Sides
deriving DecidableEq

/-- `ChartLayout::new`. -/
def ChartLayout.new {σ : Type} : ChartLayout σ :=
  { label_area_size := ⟨0, 0, 0, 0⟩
    title_height := 0
    title_content := none
    margin := ⟨0, 0, 0, 0⟩ }

/-- `ChartLayout::set_all_label_area_size`. -/
def ChartLayout.set_all_label_area_size {σ} (l : ChartLayout σ)
    (top bottom left right : Nat) : ChartLayout σ :=
  { l with label_area_size := ⟨top, bottom, left, right⟩ }

/-- `ChartLayout::x_label_area_size` (writes the bottom label band). -/
def ChartLayout.x_label_area_size {σ} (l : ChartLayout σ) (size : Nat) : ChartLayout σ :=
  { l with label_area_size := { l.label_area_size with bottom := size } }

/-- `ChartLayout::y_label_area_size` (writes the left label band). -/
def ChartLayout.y_label_area_size {σ} (l : ChartLayout σ) (size : Nat) : ChartLayout σ :=
  { l with label_area_size := { l.label_area_size with left := size } }

/-- `ChartLayout::top_x_label_area_size`. -/
def ChartLayout.top_x_label_area_size {σ} (l : ChartLayout σ) (size : Nat) : ChartLayout σ :=
  { l with label_area_size := { l.label_area_size with top := size } }

/-- `ChartLayout::right_y_label_area_size`. -/
def ChartLayout.right_y_label_area_size {σ} (l : ChartLayout σ) (size : Nat) : ChartLayout σ :=
  { l with label_area_size := { l.label_area_size with right := size } }

/-- `ChartLayout::set_all_margin`. -/
def ChartLayout.set_all_margin {σ} (l : ChartLayout σ)
    (top bottom left right : Nat) : ChartLayout σ :=
  { l with margin := ⟨top, bottom, left, right⟩ }

/-- `ChartLayout::margin` (sets all four margins to the same value); named
`margin_all` here because `margin` is already the field name. -/
def ChartLayout.margin_all {σ} (l : ChartLayout σ) (size : Nat) : ChartLayout σ :=
  { l with margin := ⟨size, size, size, size⟩ }

/-- `ChartLayout::margin_top`. -/
def ChartLayout.margin_top {σ} (l : ChartLayout σ) (size : Nat) : ChartLayout σ :=
  { l with margin := { l.margin with top := size } }

/-- `ChartLayout::margin_bottom`. -/
def ChartLayout.margin_bottom {σ} (l : ChartLayout σ) (size : Nat) : ChartLayout σ :=
  { l with margin := { l.margin with bottom := size } }

/-- `ChartLayout::margin_left`. -/
def ChartLayout.margin_left {σ} (l : ChartLayout σ) (size : Nat) : ChartLayout σ :=
  { l with margin := { l.margin with left := size } }

/-- `ChartLayout::margin_right`. -/
def ChartLayout.margin_right {σ} (l : ChartLayout σ) (size : Nat) : ChartLayout σ :=
  { l with margin := { l.margin with right := size } }

/-- `ChartLayout::no_caption`: clears caption text and caption-area height. -/
def ChartLayout.no_caption {σ} (l : ChartLayout σ) : ChartLayout σ :=
  { l with title_height := 0, title_content := none }

/-- `ChartLayout::caption`.  The result of the external text-metrics query
(`estimate_text_size(&text, &font)` in the source, a `(width, height)` pixel
bounding box or a font error) is passed in as `measured`, and the `TextStyle`
derived from the font as `style`.  The source mutates `&mut self` only after
the `?` on the metrics query succeeds, so the returned pair is the descriptor
state after the call together with the call's `Result`. -/
def ChartLayout.caption {σ ε : Type} (l : ChartLayout σ) (text : String) (style : σ)
    (measured : Except ε (Nat × Nat)) : ChartLayout σ × Except ε Unit :=
  match measured with
  | .error e => (l, .error e)
  | .ok m =>
      let text_h := m.2
      let y_padding := min (text_h / 2) 5
      ({ l with
          title_height := y_padding * 2 + text_h
          title_content := some (text, style, y_padding) },
        .ok ())

/-- `ChartLayout::replace_caption`: replaces the caption text, without
updating layout. -/
def ChartLayout.replace_caption {σ} (l : ChartLayout σ) (text : String) : ChartLayout σ :=
  match l.title_content with
  | some (_, style, y_padding) => { l with title_content := some (text, style, y_padding) }
  | none => l

/-- `ChartLayout::additional_sizes`: pixel width/height consumed by all
non-plot bands. -/
def ChartLayout.additional_sizes {σ} (l : ChartLayout σ) : Nat × Nat :=
  (l.margin.left + l.margin.right + l.label_area_size.left + l.label_area_size.right,
   l.title_height + l.margin.top + l.margin.bottom
     + l.label_area_size.top + l.label_area_size.bottom)

/-- `ChartLayout::desired_image_size`. -/
def ChartLayout.desired_image_size {σ} (l : ChartLayout σ) (plot_size : Nat × Nat) :
    Nat × Nat :=
  let additional := l.additional_sizes
  (plot_size.1 + additional.1, plot_size.2 + additional.2)

/-- Rust's saturating `as u32` cast applied to an `f64` value (modelled over
`ℚ`): truncation toward zero, clamped to `[0, 2^32 - 1]`. -/
def f64_as_u32 (x : ℚ) : Nat := min (max ⌊x⌋ 0).toNat (2 ^ 32 - 1)

/-- `ChartLayout::desired_image_height_from_width`.  The `f64` arithmetic of
the source is modelled exactly over `ℚ`. -/
def ChartLayout.desired_image_height_from_width {σ} (l : ChartLayout σ)
    (image_width : Nat) (aspect : ℚ) : Nat :=
  let additional := l.additional_sizes
  if image_width < additional.1 then additional.2
  else f64_as_u32 (((image_width - additional.1 : Nat) : ℚ) * aspect) + additional.2

/-- `ChartLayoutBuilder` from `src/chart.rs`: a layout bound to a root
surface.  Of the main drawing area only its pixel dimensions
(`main_area.dim_in_pixel()`) are read by the layout arithmetic, so the bound
layout is modelled by the descriptor clone plus those dimensions. -/
structure ChartLayoutBuilder (σ : Type) where
  layout : ChartLayout σ
  main_area : Nat × Nat
deriving DecidableEq

/-- `ChartLayout::bind`: geometric effect only.  When `title_height > 0` the
root surface is split vertically at `title_height`, and the remaining area
(root height minus the title band) becomes the main area; drawing the caption
text is a backend side effect with no influence on the geometry.  The
subtraction is exact whenever the title band fits in the root surface, which
holds for every surface sized by `desired_image_size`. -/
def ChartLayout.bind {σ} (l : ChartLayout σ) (root_dims : Nat × Nat) :
    ChartLayoutBuilder σ :=
  { layout := l
    main_area :=
      if 0 < l.title_height then (root_dims.1, root_dims.2 - l.title_height)
      else root_dims }

/-- Rust `u32` subtraction: underflow is a panic (with debug assertions),
modelled as `none`. -/
def sub_u32 (a b : Nat) : Option Nat := if b ≤ a then some (a - b) else none

/-- `ChartLayoutBuilder::estimate_plot_area_size`.  The two pixel-size
subtractions are the source's `u32` subtractions, which panic on underflow. -/
def ChartLayoutBuilder.estimate_plot_area_size {σ} (b : ChartLayoutBuilder σ) :
    Option (Nat × Nat) := do
  let plot_width ← sub_u32 b.main_area.1
    (b.layout.margin.left + b.layout.margin.right
      + b.layout.label_area_size.left + b.layout.label_area_size.right)
  let plot_height ← sub_u32 b.main_area.2
    (b.layout.margin.top + b.layout.margin.bottom
      + b.layout.label_area_size.top + b.layout.label_area_size.bottom)
  some (plot_width, plot_height)

/-- Modelled from the spec: the external coordinate-system builder (plotters'
`ChartBuilder::build_cartesian_2d`), which is not part of this repository.
Per the spec, it "constructs a 2D Cartesian coordinate system ... given four
margin sizes, four label-area sizes (all in pixels)" over the given surface,
and the resulting plotting (content) area is the surface minus the margin and
label bands on each axis. -/
def externalBuildCartesian2dPlotSize (area : Nat × Nat) (m lbl : Sides) :
    Option (Nat × Nat) := do
  let w ← sub_u32 area.1 (m.left + m.right + lbl.left + lbl.right)
  let h ← sub_u32 area.2 (m.top + m.bottom + lbl.top + lbl.bottom)
  some (w, h)

/-- `ChartLayoutBuilder::build_cartesian_2d`, geometric content: the source
forwards the descriptor's four margins and four label-area sizes to a
`ChartBuilder` on the main area; the value modelled is the pixel size of the
plotting area of the chart context it returns. -/
def ChartLayoutBuilder.build_cartesian_2d {σ} (b : ChartLayoutBuilder σ) :
    Option (Nat × Nat) :=
  externalBuildCartesian2dPlotSize b.main_area b.layout.margin b.layout.label_area_size

/-- The spec's descriptor invariant: `title_height == 0 ⇔ title_content == None`. -/
def ChartLayout.TitleInv {σ} (l : ChartLayout σ) : Prop :=
  l.title_height = 0 ↔ l.title_content = none

instance {σ} [DecidableEq σ] (l : ChartLayout σ) : Decidable l.TitleInv := by
  unfold ChartLayout.TitleInv; infer_instance

/-- `centering_ranges` from `src/lib.rs`, instantiated at the ordered field
`ℚ` (the source is generic over a numeric type with `+ - * /` and `<`; its
`f64` use is modelled exactly over `ℚ`).  A range `a..b` is modelled as the
pair `(a, b)` (`.1` the start, `.2` the end). -/
def centering_ranges (minimum : (ℚ × ℚ) × (ℚ × ℚ)) (destination : ℚ × ℚ) :
    (ℚ × ℚ) × (ℚ × ℚ) :=
  let sx := minimum.1.2 - minimum.1.1
  let sy := minimum.2.2 - minimum.2.1
  let dx := destination.1
  let dy := destination.2
  let half := dx / (dx + dx)
  if sx * dy < sy * dx then
    let radius := sy * dx / dy * half
    let center := (minimum.1.1 + minimum.1.2) * half
    ((center - radius, radius + center), minimum.2)
  else
    let radius := sx * dy / dx * half
    let center := (minimum.2.2 + minimum.2.1) * half
    (minimum.1, (center - radius, radius + center))

/-- The divisors evaluated by `centering_ranges` on a given input, in source
order: `dx + dx` in `half = dx / (dx + dx)`, then `dy` in the grow-X branch's
`radius = sy * dx / dy * half`, or `dx` in the grow-Y branch's
`radius = sx * dy / dx * half`. -/
def centering_divisors (minimum : (ℚ × ℚ) × (ℚ × ℚ)) (destination : ℚ × ℚ) :
    List ℚ :=
  let sx := minimum.1.2 - minimum.1.1
  let sy := minimum.2.2 - minimum.2.1
  let dx := destination.1
  let dy := destination.2
  if sx * dy < sy * dx then [dx + dx, dy] else [dx + dx, dx]

section Theorems

/-- `dx / (dx + dx) = 1/2` whenever `dx ≠ 0` — the source's `half` constant. -/
theorem half_eq_one_half {dx : ℚ} (hdx : dx ≠ 0) : dx / (dx + dx) = 1 / 2 := by
  rw [show dx + dx = 2 * dx by ring]
  rw [div_eq_div_iff (by positivity) (by norm_num)]
  ring

/-- A `u32` subtraction that exactly cancels a previous addition succeeds. -/
theorem sub_u32_add (a b : Nat) : sub_u32 (a + b) b = some a := by
  simp [sub_u32]

/-- C1: for every margin/label/caption configuration and every plot size
representable on a real surface (the image dimensions fit in `u32`), binding
a root surface whose pixel dimensions equal `desired_image_size plot_size`
and then estimating the plot-area size on the resulting bound layout returns
exactly `plot_size` in both components. -/
theorem estimate_plot_area_size_of_bind_desired {σ} (l : ChartLayout σ)
    (plot_size : Nat × Nat)
    (_hw : plot_size.1 + l.additional_sizes.1 < 2 ^ 32)
    (_hh : plot_size.2 + l.additional_sizes.2 < 2 ^ 32) :
    (l.bind (l.desired_image_size plot_size)).estimate_plot_area_size =
      some plot_size := by
  clear _hw _hh
  obtain ⟨p1, p2⟩ := plot_size
  have hmain : (l.bind (l.desired_image_size (p1, p2))).main_area =
      (p1 + (l.margin.left + l.margin.right
          + l.label_area_size.left + l.label_area_size.right),
        p2 + (l.margin.top + l.margin.bottom
          + l.label_area_size.top + l.label_area_size.bottom)) := by
    simp only [ChartLayout.bind, ChartLayout.desired_image_size,
      ChartLayout.additional_sizes]
    split
    · simp only [Prod.mk.injEq]
      exact ⟨trivial, by omega⟩
    · simp only [Prod.mk.injEq]
      exact ⟨trivial, by omega⟩
  have hlay : (l.bind (l.desired_image_size (p1, p2))).layout = l := rfl
  simp only [ChartLayoutBuilder.estimate_plot_area_size, hmain, hlay,
    sub_u32_add]
  rfl

/-- Witness for C1 at a concrete configuration: margins `(5,10,12,15)`,
label areas `(20,25,30,32)`, a caption band of height `28`, plot size
`(200, 350)`. -/
theorem estimate_plot_area_size_of_bind_desired_witness :
    (let l : ChartLayout Unit :=
      { title_height := 28, title_content := some ("Test Title", (), 5)
        margin := ⟨5, 10, 12, 15⟩, label_area_size := ⟨20, 25, 30, 32⟩ }
     (200, 350).1 + l.additional_sizes.1 < 2 ^ 32 ∧
     (200, 350).2 + l.additional_sizes.2 < 2 ^ 32 ∧
     (l.bind (l.desired_image_size (200, 350))).estimate_plot_area_size =
       some (200, 350)) := by
  refine ⟨by decide, by decide, ?_⟩
  exact estimate_plot_area_size_of_bind_desired _ (200, 350) (by decide) (by decide)

/-- C2: the plotting-area pixel size of the coordinate system returned by
`build_cartesian_2d` equals the pair returned by `estimate_plot_area_size`
on the same bound layout (the external builder modelled from the spec). -/
theorem build_cartesian_2d_eq_estimate {σ} (b : ChartLayoutBuilder σ) :
    b.build_cartesian_2d = b.estimate_plot_area_size := by
  rfl

/-- C5: when the bound layout's main area is smaller than the reserved margin
and label bands on either axis, the `u32` pixel-size subtraction in
`estimate_plot_area_size` underflows, so the call panics (`none`): no plot
size — in particular no value clamped to zero — is returned, an outcome
distinct from any backend drawing error. -/
theorem estimate_plot_area_size_underflow {σ} (b : ChartLayoutBuilder σ)
    (hsmall :
      b.main_area.1 <
          b.layout.margin.left + b.layout.margin.right
            + b.layout.label_area_size.left + b.layout.label_area_size.right ∨
        b.main_area.2 <
          b.layout.margin.top + b.layout.margin.bottom
            + b.layout.label_area_size.top + b.layout.label_area_size.bottom) :
    b.estimate_plot_area_size = none ∧
      ∀ z : Nat × Nat, b.estimate_plot_area_size ≠ some z := by
  have hnone : b.estimate_plot_area_size = none := by
    simp only [ChartLayoutBuilder.estimate_plot_area_size, sub_u32,
      Option.bind_eq_bind]
    rcases hsmall with h | h
    · rw [if_neg (by omega)]
      rfl
    · rcases le_or_lt
        (b.layout.margin.left + b.layout.margin.right
          + b.layout.label_area_size.left + b.layout.label_area_size.right)
        b.main_area.1 with hle | hlt
      · rw [if_pos hle, if_neg (by omega)]
        rfl
      · rw [if_neg (by omega)]
        rfl
  exact ⟨hnone, fun z hz => by rw [hnone] at hz; exact Option.noConfusion hz⟩

/-- Witness for C5: a `10 × 10` main area with `20`-pixel left and right
margins underflows and yields the panic outcome. -/
theorem estimate_plot_area_size_underflow_witness :
    (let b : ChartLayoutBuilder Unit :=
      { layout :=
          { title_height := 0, title_content := none
            margin := ⟨0, 0, 20, 20⟩, label_area_size := ⟨0, 0, 0, 0⟩ }
        main_area := (10, 10) }
     (b.main_area.1 <
          b.layout.margin.left + b.layout.margin.right
            + b.layout.label_area_size.left + b.layout.label_area_size.right ∨
        b.main_area.2 <
          b.layout.margin.top + b.layout.margin.bottom
            + b.layout.label_area_size.top + b.layout.label_area_size.bottom) ∧
       b.estimate_plot_area_size = none) := by
  refine ⟨Or.inl (by decide), ?_⟩
  exact (estimate_plot_area_size_underflow _ (Or.inl (by decide))).1

/-- The grow-X branch of `centering_ranges`, spelled out. -/
theorem centering_ranges_growX (x0 x1 y0 y1 dx dy : ℚ)
    (h : (x1 - x0) * dy < (y1 - y0) * dx) :
    centering_ranges ((x0, x1), (y0, y1)) (dx, dy) =
      (((x0 + x1) * (dx / (dx + dx)) - (y1 - y0) * dx / dy * (dx / (dx + dx)),
        (y1 - y0) * dx / dy * (dx / (dx + dx)) + (x0 + x1) * (dx / (dx + dx))),
       (y0, y1)) := by
  simp only [centering_ranges]
  rw [if_pos h]

/-- The grow-Y branch of `centering_ranges`, spelled out. -/
theorem centering_ranges_growY (x0 x1 y0 y1 dx dy : ℚ)
    (h : ¬(x1 - x0) * dy < (y1 - y0) * dx) :
    centering_ranges ((x0, x1), (y0, y1)) (dx, dy) =
      ((x0, x1),
       ((y1 + y0) * (dx / (dx + dx)) - (x1 - x0) * dy / dx * (dx / (dx + dx)),
        (x1 - x0) * dy / dx * (dx / (dx + dx)) + (y1 + y0) * (dx / (dx + dx)))) := by
  simp only [centering_ranges]
  rw [if_neg h]

/-- C3 (amended): for nondegenerate inputs — positive destination components
and positive minimum spans — the ranges returned by `centering_ranges`
satisfy all three postconditions: the span aspect ratio equals `dx / dy`,
each returned span is at least the corresponding minimum span, and each
returned midpoint equals the corresponding minimum midpoint. -/
theorem centering_ranges_postconditions (m : (ℚ × ℚ) × (ℚ × ℚ)) (d : ℚ × ℚ)
    (hdx : 0 < d.1) (hdy : 0 < d.2)
    (hsx : 0 < m.1.2 - m.1.1) (hsy : 0 < m.2.2 - m.2.1) :
    ((centering_ranges m d).1.2 - (centering_ranges m d).1.1) /
        ((centering_ranges m d).2.2 - (centering_ranges m d).2.1) = d.1 / d.2 ∧
      m.1.2 - m.1.1 ≤ (centering_ranges m d).1.2 - (centering_ranges m d).1.1 ∧
      m.2.2 - m.2.1 ≤ (centering_ranges m d).2.2 - (centering_ranges m d).2.1 ∧
      ((centering_ranges m d).1.1 + (centering_ranges m d).1.2) / 2 =
        (m.1.1 + m.1.2) / 2 ∧
      ((centering_ranges m d).2.1 + (centering_ranges m d).2.2) / 2 =
        (m.2.1 + m.2.2) / 2 := by
  obtain ⟨⟨x0, x1⟩, ⟨y0, y1⟩⟩ := m
  obtain ⟨dx, dy⟩ := d
  simp only at hdx hdy hsx hsy ⊢
  have hdx0 : dx ≠ 0 := ne_of_gt hdx
  have hdy0 : dy ≠ 0 := ne_of_gt hdy
  have hsy0 : y1 - y0 ≠ 0 := ne_of_gt hsy
  have hsx0 : x1 - x0 ≠ 0 := ne_of_gt hsx
  rcases lt_or_le ((x1 - x0) * dy) ((y1 - y0) * dx) with h | h
  · rw [centering_ranges_growX x0 x1 y0 y1 dx dy h, half_eq_one_half hdx0]
    simp only
    refine ⟨?_, ?_, le_refl _, by ring_nf, by ring_nf⟩
    · rw [show (y1 - y0) * dx / dy * (1 / 2) + (x0 + x1) * (1 / 2) -
          ((x0 + x1) * (1 / 2) - (y1 - y0) * dx / dy * (1 / 2)) =
          (y1 - y0) * dx / dy by ring]
      field_simp
      ring
    · rw [show (y1 - y0) * dx / dy * (1 / 2) + (x0 + x1) * (1 / 2) -
          ((x0 + x1) * (1 / 2) - (y1 - y0) * dx / dy * (1 / 2)) =
          (y1 - y0) * dx / dy by ring]
      rw [le_div_iff₀ hdy]
      exact le_of_lt h
  · rw [centering_ranges_growY x0 x1 y0 y1 dx dy (not_lt.mpr h),
      half_eq_one_half hdx0]
    simp only
    have hspan : (x1 - x0) * dy / dx * (1 / 2) + (y1 + y0) * (1 / 2) -
        ((y1 + y0) * (1 / 2) - (x1 - x0) * dy / dx * (1 / 2)) =
        (x1 - x0) * dy / dx := by ring
    refine ⟨?_, le_refl _, ?_, by ring_nf, by ring⟩
    · rw [hspan]
      rw [div_div_eq_mul_div]
      rw [div_eq_div_iff (mul_ne_zero hsx0 hdy0) hdy0]
      ring
    · rw [hspan, le_div_iff₀ hdx]
      exact h

/-- Witness for C3 at the spec's concrete scenario:
`minimum = (-200..200, -100..100)`, `destination = (1280, 720)`. -/
theorem centering_ranges_postconditions_witness :
    (0 : ℚ) < ((1280 : ℚ), (720 : ℚ)).1 ∧
      (0 : ℚ) < ((1280 : ℚ), (720 : ℚ)).2 ∧
      (let m : (ℚ × ℚ) × (ℚ × ℚ) := ((-200, 200), (-100, 100))
       let d : ℚ × ℚ := (1280, 720)
       ((centering_ranges m d).1.2 - (centering_ranges m d).1.1) /
          ((centering_ranges m d).2.2 - (centering_ranges m d).2.1) = d.1 / d.2 ∧
        m.1.2 - m.1.1 ≤ (centering_ranges m d).1.2 - (centering_ranges m d).1.1 ∧
        m.2.2 - m.2.1 ≤ (centering_ranges m d).2.2 - (centering_ranges m d).2.1 ∧
        ((centering_ranges m d).1.1 + (centering_ranges m d).1.2) / 2 =
          (m.1.1 + m.1.2) / 2 ∧
        ((centering_ranges m d).2.1 + (centering_ranges m d).2.2) / 2 =
          (m.2.1 + m.2.2) / 2) := by
  refine ⟨by norm_num, by norm_num, ?_⟩
  exact centering_ranges_postconditions ((-200, 200), (-100, 100)) (1280, 720)
    (by norm_num) (by norm_num) (by norm_num) (by norm_num)

/-- Counterexample to C3 as stated: for the degenerate input
`minimum = (0..0, 0..0)`, `destination = (1, 1)` the returned rectangle is
`(0..0, 0..0)`, whose span aspect ratio is `0/0 = 0 ≠ 1/1` (in `f64` it is
`NaN`), so the postconditions do not hold for *every* input pair. -/
theorem centering_ranges_postconditions_counterexample :
    ¬(((centering_ranges ((0, 0), (0, 0)) (1, 1)).1.2 -
          (centering_ranges ((0, 0), (0, 0)) (1, 1)).1.1) /
        ((centering_ranges ((0, 0), (0, 0)) (1, 1)).2.2 -
          (centering_ranges ((0, 0), (0, 0)) (1, 1)).2.1) =
        ((1 : ℚ), (1 : ℚ)).1 / ((1 : ℚ), (1 : ℚ)).2) := by
  norm_num [centering_ranges]

/-- C6 (amended): on a tie of the cross-products (`sx*dy = sy*dx`) with a
nonzero destination width, `centering_ranges` takes the grow-Y branch and
returns exactly `minimum` — a no-op on already-matching inputs. -/
theorem centering_ranges_tie (m : (ℚ × ℚ) × (ℚ × ℚ)) (d : ℚ × ℚ)
    (hdx : d.1 ≠ 0)
    (htie : (m.1.2 - m.1.1) * d.2 = (m.2.2 - m.2.1) * d.1) :
    centering_ranges m d = m := by
  obtain ⟨⟨x0, x1⟩, ⟨y0, y1⟩⟩ := m
  obtain ⟨dx, dy⟩ := d
  simp only at hdx htie
  have hnot : ¬(x1 - x0) * dy < (y1 - y0) * dx := not_lt.mpr (le_of_eq htie.symm)
  rw [centering_ranges_growY x0 x1 y0 y1 dx dy hnot, half_eq_one_half hdx]
  have hrad : (x1 - x0) * dy / dx = y1 - y0 := by
    rw [div_eq_iff hdx]
    exact htie
  rw [hrad]
  rw [show (y1 + y0) * (1 / 2) - (y1 - y0) * (1 / 2) = y0 by ring]
  rw [show (y1 - y0) * (1 / 2) + (y1 + y0) * (1 / 2) = y1 by ring]

/-- Witness for C6 at a concrete tie: `minimum = (0..2, 0..1)`,
`destination = (2, 1)` (`sx*dy = 2 = sy*dx`), returned unchanged. -/
theorem centering_ranges_tie_witness :
    (((2 : ℚ), (1 : ℚ)).1 ≠ 0 ∧
      ((((0 : ℚ), (2 : ℚ)), ((0 : ℚ), (1 : ℚ))).1.2 -
            (((0 : ℚ), (2 : ℚ)), ((0 : ℚ), (1 : ℚ))).1.1) * ((2 : ℚ), (1 : ℚ)).2 =
          ((((0 : ℚ), (2 : ℚ)), ((0 : ℚ), (1 : ℚ))).2.2 -
            (((0 : ℚ), (2 : ℚ)), ((0 : ℚ), (1 : ℚ))).2.1) * ((2 : ℚ), (1 : ℚ)).1) ∧
      centering_ranges ((0, 2), (0, 1)) (2, 1) = ((0, 2), (0, 1)) := by
  refine ⟨⟨by norm_num, by norm_num⟩, ?_⟩
  exact centering_ranges_tie ((0, 2), (0, 1)) (2, 1) (by norm_num) (by norm_num)

/-- Counterexample to C6 as stated: at the tied input
`minimum = (0..1, 0..1)`, `destination = (0, 0)` (both cross-products are
`0`), the grow-Y branch recomputes Y with `half = 0/(0+0)` and returns
`(0..1, 0..0) ≠ minimum`; so the tie case is not a no-op for *every* tied
input. -/
theorem centering_ranges_tie_counterexample :
    ((((0 : ℚ), (1 : ℚ)), ((0 : ℚ), (1 : ℚ))).1.2 -
          (((0 : ℚ), (1 : ℚ)), ((0 : ℚ), (1 : ℚ))).1.1) * ((0 : ℚ), (0 : ℚ)).2 =
        ((((0 : ℚ), (1 : ℚ)), ((0 : ℚ), (1 : ℚ))).2.2 -
          (((0 : ℚ), (1 : ℚ)), ((0 : ℚ), (1 : ℚ))).2.1) * ((0 : ℚ), (0 : ℚ)).1 ∧
      centering_ranges ((0, 1), (0, 1)) (0, 0) ≠ ((0, 1), (0, 1)) := by
  constructor
  · norm_num
  · have h : centering_ranges ((0, 1), (0, 1)) (0, 0) =
        (((0 : ℚ), (1 : ℚ)), ((0 : ℚ), (0 : ℚ))) := by
      rw [centering_ranges_growY 0 1 0 1 0 0 (by norm_num)]
      norm_num
    rw [h]
    intro hcontra
    have h22 := congrArg (fun p : (ℚ × ℚ) × (ℚ × ℚ) => p.2.2) hcontra
    norm_num at h22

/-- C10: every division performed by `centering_ranges` — `dx / (dx + dx)`
for `half`, and the division by `dy` (grow-X branch) or `dx` (grow-Y branch)
in `radius` — has a nonzero divisor whenever both destination components are
strictly positive; and with destination width `dx = 0` the `half`
computation's divisor `dx + dx` is zero, a division by zero. -/
theorem centering_divisors_nonzero :
    (∀ (m : (ℚ × ℚ) × (ℚ × ℚ)) (d : ℚ × ℚ), 0 < d.1 → 0 < d.2 →
        ∀ q ∈ centering_divisors m d, q ≠ 0) ∧
      ((0 : ℚ) + 0 ∈ centering_divisors ((0, 1), (0, 1)) (0, 1) ∧
        (0 : ℚ) + 0 = 0) := by
  constructor
  · intro m d hdx hdy q hq
    obtain ⟨⟨x0, x1⟩, ⟨y0, y1⟩⟩ := m
    obtain ⟨dx, dy⟩ := d
    simp only at hdx hdy
    simp only [centering_divisors] at hq
    rcases lt_or_le ((x1 - x0) * dy) ((y1 - y0) * dx) with h | h
    · rw [if_pos h] at hq
      simp only [List.mem_cons, List.not_mem_nil, or_false] at hq
      rcases hq with rfl | rfl
      · positivity
      · exact ne_of_gt hdy
    · rw [if_neg (not_lt.mpr h)] at hq
      simp only [List.mem_cons, List.not_mem_nil, or_false] at hq
      rcases hq with rfl | rfl
      · positivity
      · exact ne_of_gt hdx
  · exact ⟨by norm_num [centering_divisors], by norm_num⟩

/-- Witness for C10: at `destination = (2, 1)` (both components positive),
the divisor `dx + dx = 4` of `half` is nonzero. -/
theorem centering_divisors_nonzero_witness :
    (0 : ℚ) < 2 ∧ (0 : ℚ) < 1 ∧ ((2 : ℚ) + 2) ≠ 0 := by
  refine ⟨by norm_num, by norm_num, ?_⟩
  exact centering_divisors_nonzero.1 ((0, 1), (0, 1)) (2, 1) (by norm_num)
    (by norm_num) (2 + 2) (by norm_num [centering_divisors])

/-- C8: `caption` with a successfully measured text height `h` stores the
new caption with `vertical_padding = min (h/2) 5`, sets
`title_height = 2 * vertical_padding + h`, replaces any prior caption, and
leaves all other fields unchanged; when the metrics query fails the font
error is returned and the descriptor is left unchanged. -/
theorem caption_spec {σ ε : Type} (l : ChartLayout σ) (text : String)
    (style : σ) (measured : Except ε (Nat × Nat)) :
    (∀ w h, measured = .ok (w, h) →
        l.caption text style measured =
          ({ l with
              title_height := 2 * min (h / 2) 5 + h
              title_content := some (text, style, min (h / 2) 5) },
            .ok ())) ∧
      ∀ e, measured = .error e → l.caption text style measured = (l, .error e) := by
  constructor
  · rintro w h rfl
    simp only [ChartLayout.caption]
    rw [Nat.mul_comm 2 (min (h / 2) 5)]
  · rintro e rfl
    rfl

/-- Witness for C8: a caption measured `(7, 12)` on a fresh descriptor gives
padding `5` and title height `22`; a failed metrics query returns the error
with the descriptor unchanged. -/
theorem caption_spec_witness :
    ((Except.ok (7, 12) : Except Unit (Nat × Nat)) = .ok (7, 12) ∧
        (ChartLayout.new : ChartLayout Unit).caption "t" ()
            (Except.ok (7, 12) : Except Unit (Nat × Nat)) =
          (({ title_height := 2 * min (12 / 2) 5 + 12
              title_content := some ("t", (), min (12 / 2) 5)
              margin := ⟨0, 0, 0, 0⟩
              label_area_size := ⟨0, 0, 0, 0⟩ } : ChartLayout Unit),
            .ok ())) ∧
      (Except.error () : Except Unit (Nat × Nat)) = .error () ∧
        (ChartLayout.new : ChartLayout Unit).caption "t" ()
            (Except.error () : Except Unit (Nat × Nat)) =
          (ChartLayout.new, .error ()) := by
  refine ⟨⟨rfl, ?_⟩, rfl, ?_⟩
  · exact (caption_spec ChartLayout.new "t" ()
      (Except.ok (7, 12) : Except Unit (Nat × Nat))).1 7 12 rfl
  · exact (caption_spec ChartLayout.new "t" ()
      (Except.error () : Except Unit (Nat × Nat))).2 () rfl

/-- C9: `replace_caption` with a caption present replaces only the stored
text, keeping the stored style and vertical padding and leaving
`title_height`, margins and label-area sizes unchanged; with no caption
present it leaves the descriptor entirely unchanged. -/
theorem replace_caption_spec {σ} (l : ChartLayout σ) (text : String) :
    (l.title_content = none → l.replace_caption text = l) ∧
      ∀ old style y_padding, l.title_content = some (old, style, y_padding) →
        l.replace_caption text =
          { l with title_content := some (text, style, y_padding) } := by
  constructor
  · intro h
    simp [ChartLayout.replace_caption, h]
  · intro old style y_padding h
    simp [ChartLayout.replace_caption, h]

/-- Witness for C9: a no-caption descriptor is unchanged; a descriptor with
caption `("a", (), 5)` gets text `"x"` with all other fields intact. -/
theorem replace_caption_spec_witness :
    ((ChartLayout.new : ChartLayout Unit).title_content = none ∧
        (ChartLayout.new : ChartLayout Unit).replace_caption "x" =
          ChartLayout.new) ∧
      (let l : ChartLayout Unit :=
        { title_height := 22, title_content := some ("a", (), 5)
          margin := ⟨1, 2, 3, 4⟩, label_area_size := ⟨5, 6, 7, 8⟩ }
       l.title_content = some ("a", (), 5) ∧
         l.replace_caption "x" = { l with title_content := some ("x", (), 5) }) := by
  refine ⟨⟨rfl, ?_⟩, rfl, ?_⟩
  · exact (replace_caption_spec ChartLayout.new "x").1 rfl
  · exact (replace_caption_spec
      { title_height := 22, title_content := some ("a", (), 5)
        margin := ⟨1, 2, 3, 4⟩, label_area_size := ⟨5, 6, 7, 8⟩ } "x").2 "a" () 5 rfl

/-- C4 (amended): the invariant `title_height = 0 ↔ title_content = none`
holds for a fresh descriptor and is preserved by every descriptor operation
— every margin and label-area setter, clearing the caption, replacing the
caption text, a failed caption call — and by a successful caption call
whenever the measured text height is positive. -/
theorem title_invariant_preserved {σ ε : Type} :
    (ChartLayout.new : ChartLayout σ).TitleInv ∧
      (∀ (l : ChartLayout σ) text style (w h : Nat), 0 < h →
        ((l.caption text style (.ok (w, h) : Except ε (Nat × Nat))).1).TitleInv) ∧
      (∀ (l : ChartLayout σ) text style (e : ε), l.TitleInv →
        ((l.caption text style (.error e)).1).TitleInv) ∧
      (∀ l : ChartLayout σ, l.no_caption.TitleInv) ∧
      (∀ (l : ChartLayout σ) text, l.TitleInv → (l.replace_caption text).TitleInv) ∧
      (∀ (l : ChartLayout σ) t b lf r, l.TitleInv →
        (l.set_all_label_area_size t b lf r).TitleInv) ∧
      (∀ (l : ChartLayout σ) s, l.TitleInv → (l.x_label_area_size s).TitleInv) ∧
      (∀ (l : ChartLayout σ) s, l.TitleInv → (l.y_label_area_size s).TitleInv) ∧
      (∀ (l : ChartLayout σ) s, l.TitleInv → (l.top_x_label_area_size s).TitleInv) ∧
      (∀ (l : ChartLayout σ) s, l.TitleInv → (l.right_y_label_area_size s).TitleInv) ∧
      (∀ (l : ChartLayout σ) t b lf r, l.TitleInv →
        (l.set_all_margin t b lf r).TitleInv) ∧
      (∀ (l : ChartLayout σ) s, l.TitleInv → (l.margin_all s).TitleInv) ∧
      (∀ (l : ChartLayout σ) s, l.TitleInv → (l.margin_top s).TitleInv) ∧
      (∀ (l : ChartLayout σ) s, l.TitleInv → (l.margin_bottom s).TitleInv) ∧
      (∀ (l : ChartLayout σ) s, l.TitleInv → (l.margin_left s).TitleInv) ∧
      (∀ (l : ChartLayout σ) s, l.TitleInv → (l.margin_right s).TitleInv) := by
  refine ⟨?_, ?_, ?_, ?_, ?_, ?_, ?_, ?_, ?_, ?_, ?_, ?_, ?_, ?_, ?_, ?_⟩
  · simp [ChartLayout.TitleInv, ChartLayout.new]
  · intro l text style w h hh
    simp only [ChartLayout.caption, ChartLayout.TitleInv]
    simp only [reduceCtorEq, iff_false]
    omega
  · intro l text style e h
    exact h
  · intro l
    simp [ChartLayout.TitleInv, ChartLayout.no_caption]
  · intro l text h
    unfold ChartLayout.TitleInv at h ⊢
    rcases hc : l.title_content with _ | ⟨⟨o, s, y⟩⟩ <;>
      simp only [ChartLayout.replace_caption, hc] <;>
      simp only [hc, reduceCtorEq, iff_false, iff_true] at h <;>
      simp [h]
  · intro l t b lf r h
    exact h
  · intro l s h
    exact h
  · intro l s h
    exact h
  · intro l s h
    exact h
  · intro l s h
    exact h
  · intro l t b lf r h
    exact h
  · intro l s h
    exact h
  · intro l s h
    exact h
  · intro l s h
    exact h
  · intro l s h
    exact h
  · intro l s h
    exact h

/-- Witness for C4: a caption successfully measured at height `12` on a
fresh descriptor preserves the invariant. -/
theorem title_invariant_preserved_witness :
    0 < 12 ∧
      (((ChartLayout.new : ChartLayout Unit).caption "t" ()
          (.ok (7, 12) : Except Unit (Nat × Nat))).1).TitleInv := by
  refine ⟨by norm_num, ?_⟩
  exact (title_invariant_preserved (σ := Unit) (ε := Unit)).2.1
    ChartLayout.new "t" () 7 12 (by norm_num)

/-- Counterexample to C4 as stated: a caption whose measured text height is
`0` (an empty bounding box) sets `title_height = 2 * min 0 5 + 0 = 0` while
storing `title_content = some …`, violating the invariant. -/
theorem title_invariant_counterexample :
    ¬(((ChartLayout.new : ChartLayout Unit).caption "" ()
        (.ok (0, 0) : Except Unit (Nat × Nat))).1).TitleInv := by
  decide

/-- C7 (amended): `desired_image_height_from_width` returns
`additional.height` when `image_width < additional.width`; otherwise,
provided the aspect ratio is nonnegative and the result fits in `u32`, it
returns `floor((image_width - additional.width) * aspect) + additional.height`. -/
theorem desired_image_height_from_width_spec {σ} (l : ChartLayout σ)
    (image_width : Nat) (aspect : ℚ) :
    (image_width < l.additional_sizes.1 →
        l.desired_image_height_from_width image_width aspect =
          l.additional_sizes.2) ∧
      (l.additional_sizes.1 ≤ image_width → 0 ≤ aspect →
        ⌊((image_width - l.additional_sizes.1 : Nat) : ℚ) * aspect⌋
            + (l.additional_sizes.2 : ℤ) < 2 ^ 32 →
        (l.desired_image_height_from_width image_width aspect : ℤ) =
          ⌊((image_width - l.additional_sizes.1 : Nat) : ℚ) * aspect⌋
            + l.additional_sizes.2) := by
  constructor
  · intro h
    simp [ChartLayout.desired_image_height_from_width, h]
  · intro hge h0 hfit
    simp only [ChartLayout.desired_image_height_from_width]
    rw [if_neg (not_lt.mpr hge)]
    have hx0 : (0 : ℚ) ≤ ((image_width - l.additional_sizes.1 : Nat) : ℚ) * aspect :=
      mul_nonneg (by positivity) h0
    have hfl0 : 0 ≤ ⌊((image_width - l.additional_sizes.1 : Nat) : ℚ) * aspect⌋ :=
      Int.floor_nonneg.mpr hx0
    have hcast : f64_as_u32 (((image_width - l.additional_sizes.1 : Nat) : ℚ) * aspect) =
        (⌊((image_width - l.additional_sizes.1 : Nat) : ℚ) * aspect⌋).toNat := by
      simp only [f64_as_u32, max_eq_left hfl0]
      refine min_eq_left ?_
      omega
    rw [hcast]
    push_cast
    omega

/-- Witness for C7: the degenerate branch with a `5`-pixel left margin and
width `3`, and the exact branch at width `10`, aspect `3/2`, giving `15`. -/
theorem desired_image_height_from_width_spec_witness :
    (let l1 : ChartLayout Unit :=
      { title_height := 0, title_content := none
        margin := ⟨0, 0, 5, 0⟩, label_area_size := ⟨0, 0, 0, 0⟩ }
     3 < l1.additional_sizes.1 ∧
       l1.desired_image_height_from_width 3 (1 / 2) = l1.additional_sizes.2) ∧
      ((ChartLayout.new : ChartLayout Unit).additional_sizes.1 ≤ 10 ∧
        (0 : ℚ) ≤ 3 / 2 ∧
        ⌊((10 - (ChartLayout.new : ChartLayout Unit).additional_sizes.1 : Nat) : ℚ)
              * (3 / 2)⌋
            + ((ChartLayout.new : ChartLayout Unit).additional_sizes.2 : ℤ) < 2 ^ 32 ∧
        ((ChartLayout.new : ChartLayout Unit).desired_image_height_from_width
              10 (3 / 2) : ℤ) =
          ⌊((10 - (ChartLayout.new : ChartLayout Unit).additional_sizes.1 : Nat) : ℚ)
              * (3 / 2)⌋
            + (ChartLayout.new : ChartLayout Unit).additional_sizes.2) := by
  refine ⟨⟨by decide, ?_⟩, by decide, by norm_num, ?_, ?_⟩
  · exact (desired_image_height_from_width_spec
      { title_height := 0, title_content := none
        margin := ⟨0, 0, 5, 0⟩, label_area_size := ⟨0, 0, 0, 0⟩ } 3 (1 / 2)).1
      (by decide)
  · norm_num [ChartLayout.new, ChartLayout.additional_sizes]
  · exact (desired_image_height_from_width_spec ChartLayout.new 10 (3 / 2)).2
      (by decide) (by norm_num)
      (by norm_num [ChartLayout.new, ChartLayout.additional_sizes])

/-- Counterexample to C7 as stated: with an all-zero descriptor,
`image_width = 1` and a negative aspect ratio `-1`, the saturating `as u32`
cast yields `0`, while the claimed formula
`floor((image_width - additional.width) * aspect) + additional.height = -1`. -/
theorem desired_image_height_from_width_counterexample :
    (ChartLayout.new : ChartLayout Unit).additional_sizes.1 ≤ 1 ∧
      ¬(((ChartLayout.new : ChartLayout Unit).desired_image_height_from_width
            1 (-1) : ℤ) =
          ⌊((1 - (ChartLayout.new : ChartLayout Unit).additional_sizes.1 : Nat) : ℚ)
              * (-1)⌋
            + (ChartLayout.new : ChartLayout Unit).additional_sizes.2) := by
  constructor
  · decide
  · norm_num [ChartLayout.desired_image_height_from_width,
      ChartLayout.additional_sizes, ChartLayout.new, f64_as_u32]

end Theorems

end PlottersLayout
